import Mathlib

/-!
Verification of the TopSearch single-page application (src/frontend/src/App.js
and the unnamed API helper module).  The view component holds its state in
React `useState` slots; the two query-dispatch handlers and the
collection-change handler are embedded below as pure functions from a state
record (plus an HTTP-client oracle) to the successor state together with the
list of HTTP requests issued during the dispatch.
-/

namespace TopSearch

/-- A JSON value, as returned by the HTTP client (`response.data`).  The
handlers store it into the `articles` state slot without inspecting it. -/
inductive JsonVal where
  | null : JsonVal
  | bool (b : Bool) : JsonVal
  | num (n : Int) : JsonVal
  | str (s : String) : JsonVal
  | arr (elems : List JsonVal) : JsonVal
  | obj (fields : List (String × JsonVal)) : JsonVal

/-- The view state of the `App` component: one field per `useState` slot, in
source order.  All text-input slots are strings (a DOM input value is always
a string, also for `type="number"` inputs), initialised to `""`; `articles`
is initialised to the empty array. -/
structure AppState where
  selectedCollection : String
  year : String
  startYear : String
  endYear : String
  queryString : String
  articles : JsonVal
  error : String

/-- The state created at view mount: every string slot empty, empty result
list. -/
def initialState : AppState :=
  { selectedCollection := ""
    year := ""
    startYear := ""
    endYear := ""
    queryString := ""
    articles := JsonVal.arr []
    error := "" }

/-- An outbound GET request: the URL string passed to `axios.get` and the
`params` object (a finite map from parameter name to value, kept in
insertion order). -/
structure HttpRequest where
  url : String
  params : List (String × String)
deriving DecidableEq

/-- Outcome of one HTTP call: a parsed JSON body on fulfilment, or a
rejection carrying the underlying error (network failure or non-2xx). -/
inductive HttpResult where
  | ok (body : JsonVal) : HttpResult
  | err (msg : String) : HttpResult

/-- `API_URL` from the unnamed module: `process.env.REACT_APP_API_URL ||
'http://localhost:8000'`.  `env` is the optional environment setting; the
fallback also fires when the variable is set to the empty string, since the
empty string is falsy in JavaScript. -/
def API_URL (env : Option String) : String :=
  match env with
  | some v => if v = "" then "http://localhost:8000" else v
  | none => "http://localhost:8000"

/-- URL fetched by `getData` in the unnamed module. -/
def getDataUrl (env : Option String) : String :=
  API_URL env ++ "/api/data"

/-- Error text set by both handlers when no collection is selected. -/
def selectCollectionMsg : String := "Veuillez sélectionner une collection."

/-- Error text set by the similarity handler when the query string is empty. -/
def enterTermMsg : String := "Veuillez entrer un terme de recherche."

/-- Error text set when the criteria-search HTTP call fails. -/
def searchFailMsg : String := "Erreur lors de la récupération des articles."

/-- Error text set when the similarity-search HTTP call fails. -/
def similarityFailMsg : String := "Erreur lors de la recherche par similarité."

/-- The `params` object built by `handleSearch`: each date field is added
exactly when it is truthy, and a state slot holding a string is truthy
exactly when it is non-empty. -/
def searchParams (s : AppState) : List (String × String) :=
  (if s.year = "" then [] else [("year", s.year)]) ++
  (if s.startYear = "" then [] else [("start_year", s.startYear)]) ++
  (if s.endYear = "" then [] else [("end_year", s.endYear)])

/-- The request issued by `handleSearch` when its precondition holds: a GET
on the relative URL template literal with the params object. -/
def searchRequest (s : AppState) : HttpRequest :=
  { url := "/collections/" ++ s.selectedCollection ++ "/articles"
    params := searchParams s }

/-- The request issued by `handleSimilaritySearch` when its preconditions
hold. -/
def similarityRequest (s : AppState) : HttpRequest :=
  { url := "/collections/" ++ s.selectedCollection ++ "/search"
    params := [("query_string", s.queryString)] }

/-- `handleSearch` from App.js.  `http` is the HTTP-client oracle giving the
settled outcome of each request.  Returns the successor view state and the
list of requests issued.  `if (!selectedCollection)` tests JavaScript
falsiness of a string slot, i.e. emptiness; the `catch` branch sets the
fixed failure text and only logs the caught error. -/
def handleSearch (s : AppState) (http : HttpRequest → HttpResult) :
    AppState × List HttpRequest :=
  if s.selectedCollection = "" then
    ({ s with error := selectCollectionMsg }, [])
  else
    match http (searchRequest s) with
    | HttpResult.ok body => ({ s with articles := body, error := "" }, [searchRequest s])
    | HttpResult.err _ => ({ s with error := searchFailMsg }, [searchRequest s])

/-- `handleSimilaritySearch` from App.js: the two guards in source order,
then a GET on the search URL with the single `query_string` parameter. -/
def handleSimilaritySearch (s : AppState) (http : HttpRequest → HttpResult) :
    AppState × List HttpRequest :=
  if s.selectedCollection = "" then
    ({ s with error := selectCollectionMsg }, [])
  else if s.queryString = "" then
    ({ s with error := enterTermMsg }, [])
  else
    match http (similarityRequest s) with
    | HttpResult.ok body =>
        ({ s with articles := body, error := "" }, [similarityRequest s])
    | HttpResult.err _ =>
        ({ s with error := similarityFailMsg }, [similarityRequest s])

/-- `handleCollectionChange` from App.js, with `collection` the radio value
of the change event.  React `useState` setters do not mutate the bindings
captured by the current render closure: `setSelectedCollection(collection)`
only schedules an update for the next render, and the `handleSearch()`
invoked two lines later is the closure of the current render, which still
reads the old `selectedCollection` (and the old date slots, which is why the
guard uses the pre-update date fields).  The model therefore runs
`handleSearch` on the pre-update state and applies the scheduled
`selectedCollection` update to its result. -/
def handleCollectionChange (s : AppState) (collection : String)
    (http : HttpRequest → HttpResult) : AppState × List HttpRequest :=
  if s.year = "" ∧ s.startYear = "" ∧ s.endYear = "" then
    let r := handleSearch s http
    ({ r.1 with selectedCollection := collection }, r.2)
  else
    ({ s with selectedCollection := collection }, [])

/-- An HTTP oracle that fulfils every request with an empty array body. -/
def okHttp : HttpRequest → HttpResult :=
  fun _ => HttpResult.ok (JsonVal.arr [])

/-- An HTTP oracle that rejects every request. -/
def errHttp : HttpRequest → HttpResult :=
  fun _ => HttpResult.err "Network Error"

/-- Helper: the request list of one criteria-search dispatch, as a function
of the guard. -/
theorem handleSearch_requests (s : AppState) (http : HttpRequest → HttpResult) :
    (handleSearch s http).2 =
      if s.selectedCollection = "" then [] else [searchRequest s] := by
  unfold handleSearch
  split
  · rfl
  · cases http (searchRequest s) <;> rfl

/-- Helper: a criteria-search dispatch only ever writes the `articles` and
`error` slots; every other slot of the successor state equals the
corresponding slot of the predecessor. -/
theorem handleSearch_frame (s : AppState) (http : HttpRequest → HttpResult) :
    (handleSearch s http).1.selectedCollection = s.selectedCollection ∧
    (handleSearch s http).1.year = s.year ∧
    (handleSearch s http).1.startYear = s.startYear ∧
    (handleSearch s http).1.endYear = s.endYear ∧
    (handleSearch s http).1.queryString = s.queryString := by
  unfold handleSearch
  split
  · exact ⟨rfl, rfl, rfl, rfl, rfl⟩
  · cases http (searchRequest s) <;> exact ⟨rfl, rfl, rfl, rfl, rfl⟩

/-- Helper: the request list of one similarity-search dispatch, as a
function of the two guards. -/
theorem handleSimilaritySearch_requests (s : AppState) (http : HttpRequest → HttpResult) :
    (handleSimilaritySearch s http).2 =
      if s.selectedCollection = "" then []
      else if s.queryString = "" then []
      else [similarityRequest s] := by
  unfold handleSimilaritySearch
  split
  · rfl
  · split
    · rfl
    · cases http (similarityRequest s) <;> rfl

/-- Helper: `searchParams` reads only the three date slots. -/
theorem searchParams_congr (s t : AppState) (hy : t.year = s.year)
    (hs : t.startYear = s.startYear) (he : t.endYear = s.endYear) :
    searchParams t = searchParams s := by
  simp [searchParams, hy, hs, he]

/-- C6: for every state with an empty collection identifier, the
criteria-search operation issues zero requests, sets the error message to
the fixed select-a-collection text, and leaves the result list untouched. -/
theorem C6_search_empty_collection (s : AppState) (http : HttpRequest → HttpResult)
    (h : s.selectedCollection = "") :
    (handleSearch s http).2 = [] ∧
    (handleSearch s http).1.error = selectCollectionMsg ∧
    (handleSearch s http).1.articles = s.articles := by
  simp [handleSearch, h]

/-- Witness for C6 at the initial state with a rejecting HTTP client. -/
theorem C6_search_empty_collection_witness :
    (handleSearch initialState errHttp).2 = [] ∧
    (handleSearch initialState errHttp).1.error = selectCollectionMsg ∧
    (handleSearch initialState errHttp).1.articles = initialState.articles :=
  C6_search_empty_collection initialState errHttp rfl

/-- C3: when a collection is selected, the criteria search issues exactly one
GET request to `/collections/{collectionId}/articles`, and its parameter set
is exactly the non-empty fields among year, start_year, end_year, each value
passed through unmodified (the filter keeps precisely the non-empty
slots). -/
theorem C3_params_exact (s : AppState) (http : HttpRequest → HttpResult)
    (h : s.selectedCollection ≠ "") :
    (handleSearch s http).2 =
      [{ url := "/collections/" ++ s.selectedCollection ++ "/articles"
         params := searchParams s }] ∧
    searchParams s =
      ([("year", s.year), ("start_year", s.startYear), ("end_year", s.endYear)].filter
        (fun p => p.2 != "")) := by
  constructor
  · rw [handleSearch_requests, if_neg h]
    rfl
  · by_cases hy : s.year = "" <;> by_cases hs : s.startYear = "" <;>
      by_cases he : s.endYear = "" <;>
      simp [searchParams, List.filter_cons, hy, hs, he]

/-- Witness for C3 with collection CsAI, year 2020, end year 2024, start year
empty. -/
theorem C3_params_exact_witness :
    (handleSearch
        { initialState with selectedCollection := "CsAI", year := "2020", endYear := "2024" }
        okHttp).2 =
      [{ url := "/collections/CsAI/articles"
         params := searchParams
           { initialState with selectedCollection := "CsAI", year := "2020", endYear := "2024" } }] ∧
    searchParams
        { initialState with selectedCollection := "CsAI", year := "2020", endYear := "2024" } =
      ([("year", "2020"), ("start_year", ""), ("end_year", "2024")].filter
        (fun p => p.2 != "")) :=
  C3_params_exact
    { initialState with selectedCollection := "CsAI", year := "2020", endYear := "2024" }
    okHttp (by decide)

/-- C8: neither handler ever modifies the selected collection identifier:
after any dispatch (precondition failure, success, or HTTP failure) the
selection equals the one held before. -/
theorem C8_collection_preserved (s : AppState) (http : HttpRequest → HttpResult) :
    (handleSearch s http).1.selectedCollection = s.selectedCollection ∧
    (handleSimilaritySearch s http).1.selectedCollection = s.selectedCollection := by
  constructor
  · unfold handleSearch
    split
    · rfl
    · cases http (searchRequest s) <;> rfl
  · unfold handleSimilaritySearch
    split
    · rfl
    · split
      · rfl
      · cases http (similarityRequest s) <;> rfl

/-- C9: parameter construction for the criteria search is a deterministic
pure function of the view state, and a dispatch leaves every slot it reads
unchanged: re-issuing the identical criteria search on the post-dispatch
state produces the same parameter set and the same request list. -/
theorem C9_params_deterministic (s : AppState) (http : HttpRequest → HttpResult) :
    searchParams (handleSearch s http).1 = searchParams s ∧
    (handleSearch (handleSearch s http).1 http).2 = (handleSearch s http).2 := by
  obtain ⟨hc, hy, hs', he, -⟩ := handleSearch_frame s http
  have hparams : searchParams (handleSearch s http).1 = searchParams s :=
    searchParams_congr s (handleSearch s http).1 hy hs' he
  refine ⟨hparams, ?_⟩
  have hreq : searchRequest (handleSearch s http).1 = searchRequest s := by
    simp [searchRequest, hc, hparams]
  rw [handleSearch_requests, handleSearch_requests, hc, hreq]

/-- C4: whenever the HTTP call of a dispatch rejects, the result list is
left unchanged and the error message becomes the fixed per-operation failure
text, independent of the underlying error `m` (which is never surfaced);
the two failure texts are distinct. -/
theorem C4_failure_fixed_text (s : AppState) (http : HttpRequest → HttpResult) (m : String)
    (hc : s.selectedCollection ≠ "") (hq : s.queryString ≠ "")
    (h1 : http (searchRequest s) = HttpResult.err m)
    (h2 : http (similarityRequest s) = HttpResult.err m) :
    (handleSearch s http).1.articles = s.articles ∧
    (handleSearch s http).1.error = searchFailMsg ∧
    (handleSimilaritySearch s http).1.articles = s.articles ∧
    (handleSimilaritySearch s http).1.error = similarityFailMsg ∧
    searchFailMsg ≠ similarityFailMsg := by
  refine ⟨?_, ?_, ?_, ?_, by decide⟩ <;>
    simp [handleSearch, handleSimilaritySearch, hc, hq, h1, h2]

/-- Witness for C4: collection CsCL, query-string q, every call rejected. -/
theorem C4_failure_fixed_text_witness :
    (handleSearch { initialState with selectedCollection := "CsCL", queryString := "q" }
        errHttp).1.articles =
      ({ initialState with selectedCollection := "CsCL", queryString := "q" } : AppState).articles ∧
    (handleSearch { initialState with selectedCollection := "CsCL", queryString := "q" }
        errHttp).1.error = searchFailMsg ∧
    (handleSimilaritySearch { initialState with selectedCollection := "CsCL", queryString := "q" }
        errHttp).1.articles =
      ({ initialState with selectedCollection := "CsCL", queryString := "q" } : AppState).articles ∧
    (handleSimilaritySearch { initialState with selectedCollection := "CsCL", queryString := "q" }
        errHttp).1.error = similarityFailMsg ∧
    searchFailMsg ≠ similarityFailMsg :=
  C4_failure_fixed_text { initialState with selectedCollection := "CsCL", queryString := "q" }
    errHttp "Network Error" (by decide) (by decide) rfl rfl

/-- C5: the similarity handler checks its preconditions in order: an empty
collection identifier wins regardless of the query-string and issues no
request; with a collection but an empty query-string it sets the
enter-a-term error and issues no request; with both non-empty it issues a
single GET to `/collections/{collectionId}/search` whose only parameter
carries the query-string. -/
theorem C5_similarity_preconditions (s : AppState) (http : HttpRequest → HttpResult) :
    (s.selectedCollection = "" →
      handleSimilaritySearch s http = ({ s with error := selectCollectionMsg }, [])) ∧
    (s.selectedCollection ≠ "" → s.queryString = "" →
      handleSimilaritySearch s http = ({ s with error := enterTermMsg }, [])) ∧
    (s.selectedCollection ≠ "" → s.queryString ≠ "" →
      (handleSimilaritySearch s http).2 =
        [{ url := "/collections/" ++ s.selectedCollection ++ "/search"
           params := [("query_string", s.queryString)] }]) := by
  refine ⟨fun hc => ?_, fun hc hq => ?_, fun hc hq => ?_⟩
  · simp [handleSimilaritySearch, hc]
  · simp [handleSimilaritySearch, hc, hq]
  · rw [handleSimilaritySearch_requests, if_neg hc, if_neg hq]
    rfl

/-- Witness for C5: with no collection but a non-empty query-string the
selection error wins and no request is issued. -/
theorem C5_similarity_preconditions_witness :
    handleSimilaritySearch { initialState with queryString := "transformers" } okHttp =
      ({ { initialState with queryString := "transformers" } with
          error := selectCollectionMsg }, []) :=
  (C5_similarity_preconditions { initialState with queryString := "transformers" } okHttp).1 rfl

/-- C7: whenever the HTTP call of a dispatch fulfils, the result list is
replaced wholesale by the response body and the error message is cleared to
the empty string, for both operations. -/
theorem C7_success_replaces (s : AppState) (http : HttpRequest → HttpResult) (body : JsonVal)
    (hc : s.selectedCollection ≠ "") (hq : s.queryString ≠ "")
    (h1 : http (searchRequest s) = HttpResult.ok body)
    (h2 : http (similarityRequest s) = HttpResult.ok body) :
    (handleSearch s http).1.articles = body ∧
    (handleSearch s http).1.error = "" ∧
    (handleSimilaritySearch s http).1.articles = body ∧
    (handleSimilaritySearch s http).1.error = "" := by
  refine ⟨?_, ?_, ?_, ?_⟩ <;>
    simp [handleSearch, handleSimilaritySearch, hc, hq, h1, h2]

/-- Witness for C7 at the response body of the spec example,
`[{id:1,title:"A",summary:"S"}]`. -/
theorem C7_success_replaces_witness :
    (handleSearch { initialState with selectedCollection := "StatML", queryString := "q" }
        (fun _ => HttpResult.ok (JsonVal.arr
          [JsonVal.obj [("id", JsonVal.num 1), ("title", JsonVal.str "A"),
            ("summary", JsonVal.str "S")]]))).1.articles =
      JsonVal.arr [JsonVal.obj [("id", JsonVal.num 1), ("title", JsonVal.str "A"),
        ("summary", JsonVal.str "S")]] ∧
    (handleSearch { initialState with selectedCollection := "StatML", queryString := "q" }
        (fun _ => HttpResult.ok (JsonVal.arr
          [JsonVal.obj [("id", JsonVal.num 1), ("title", JsonVal.str "A"),
            ("summary", JsonVal.str "S")]]))).1.error = "" ∧
    (handleSimilaritySearch { initialState with selectedCollection := "StatML", queryString := "q" }
        (fun _ => HttpResult.ok (JsonVal.arr
          [JsonVal.obj [("id", JsonVal.num 1), ("title", JsonVal.str "A"),
            ("summary", JsonVal.str "S")]]))).1.articles =
      JsonVal.arr [JsonVal.obj [("id", JsonVal.num 1), ("title", JsonVal.str "A"),
        ("summary", JsonVal.str "S")]] ∧
    (handleSimilaritySearch { initialState with selectedCollection := "StatML", queryString := "q" }
        (fun _ => HttpResult.ok (JsonVal.arr
          [JsonVal.obj [("id", JsonVal.num 1), ("title", JsonVal.str "A"),
            ("summary", JsonVal.str "S")]]))).1.error = "" :=
  C7_success_replaces { initialState with selectedCollection := "StatML", queryString := "q" }
    (fun _ => HttpResult.ok (JsonVal.arr
      [JsonVal.obj [("id", JsonVal.num 1), ("title", JsonVal.str "A"),
        ("summary", JsonVal.str "S")]]))
    (JsonVal.arr [JsonVal.obj [("id", JsonVal.num 1), ("title", JsonVal.str "A"),
      ("summary", JsonVal.str "S")]])
    (by decide) (by decide) rfl rfl

/-- C10: on a fulfilled HTTP call both handlers store the response body into
the result list as-is, for every JSON value `v`, including values that are
not arrays of well-shaped article records: no validation is performed. -/
theorem C10_no_response_validation (s : AppState) (v : JsonVal)
    (hc : s.selectedCollection ≠ "") (hq : s.queryString ≠ "") :
    (handleSearch s (fun _ => HttpResult.ok v)).1.articles = v ∧
    (handleSimilaritySearch s (fun _ => HttpResult.ok v)).1.articles = v := by
  constructor <;> simp [handleSearch, handleSimilaritySearch, hc, hq]

/-- Witness for C10 at a response body that is a bare string, not an article
array. -/
theorem C10_no_response_validation_witness :
    (handleSearch { initialState with selectedCollection := "CSCV", queryString := "q" }
        (fun _ => HttpResult.ok (JsonVal.str "not an article array"))).1.articles =
      JsonVal.str "not an article array" ∧
    (handleSimilaritySearch { initialState with selectedCollection := "CSCV", queryString := "q" }
        (fun _ => HttpResult.ok (JsonVal.str "not an article array"))).1.articles =
      JsonVal.str "not an article array" :=
  C10_no_response_validation { initialState with selectedCollection := "CSCV", queryString := "q" }
    (JsonVal.str "not an article array") (by decide) (by decide)

/-- C1 (code bug evaluation): with all date fields empty the auto dispatch
fires, but the `handleSearch` closure still reads the pre-update collection.
At the first selection (previous selection empty) the auto dispatch issues
no request at all and instead sets the select-a-collection error, while the
selection itself does update; and when a different collection was already
selected, the auto-issued request targets the OLD collection, not the newly
selected one. -/
theorem C1_auto_trigger_stale_closure :
    (handleCollectionChange initialState "CsAI" okHttp).2 = [] ∧
    (handleCollectionChange initialState "CsAI" okHttp).1.error = selectCollectionMsg ∧
    (handleCollectionChange initialState "CsAI" okHttp).1.selectedCollection = "CsAI" ∧
    ((handleCollectionChange { initialState with selectedCollection := "CsCL" } "CsAI"
        okHttp).2.map HttpRequest.url) = ["/collections/CsCL/articles"] := by
  refine ⟨rfl, rfl, rfl, rfl⟩

/-- C2 (counterexample): the criteria-search dispatch passes the bare
relative path to the HTTP client; its request URL is NOT the configured base
URL concatenated with the relative path (shown here with the environment
variable unset, where the configured base is the local fallback). -/
theorem C2_base_url_counterexample :
    ((handleSearch { initialState with selectedCollection := "CsAI" } okHttp).2.map
        HttpRequest.url) = ["/collections/CsAI/articles"] ∧
    "/collections/CsAI/articles" ≠ API_URL none ++ "/collections/CsAI/articles" := by
  exact ⟨rfl, by decide⟩

/-- C2 (amended): only the `getData` helper of the unnamed module resolves
its path against the configured base URL (the environment setting with the
`http://localhost:8000` local-development fallback); the two search
operations hand the HTTP client bare relative paths, never prefixed with
that base. -/
theorem C2_base_url_amended (env : Option String) (s : AppState)
    (http : HttpRequest → HttpResult) :
    getDataUrl env = API_URL env ++ "/api/data" ∧
    ((handleSearch s http).2.map HttpRequest.url).all
      (fun u => u == "/collections/" ++ s.selectedCollection ++ "/articles") = true ∧
    ((handleSimilaritySearch s http).2.map HttpRequest.url).all
      (fun u => u == "/collections/" ++ s.selectedCollection ++ "/search") = true := by
  refine ⟨rfl, ?_, ?_⟩
  · rw [handleSearch_requests]
    split
    · rfl
    · simp [searchRequest]
  · rw [handleSimilaritySearch_requests]
    split
    · rfl
    · split
      · rfl
      · simp [similarityRequest]

end TopSearch
